import Mathlib

/-!
Shallow embedding of `solo/dfu.py` (the DFU protocol engine of solo1-cli):
the address translator, the DFU status/state machine, the device-session
transfer operations, the status-query retry loop, and device discovery.

Effectful USB interaction is modelled as explicit state passing over an
oracle of device responses: every operation of `DFUDevice` becomes a
function from an `Oracle` (the sequence of status responses / upload
payloads the device would produce) to a result, the remaining oracle, and
the trace of USB transfers and sleeps the operation performs.  Python
exceptions become `Except` errors; a Python `assert` failure becomes the
`protocolInvariant` error.
-/

namespace SoloDfu

/-- Modelled from the spec: the DFU state enum (`DFU.state` lives in
`solo/commands.py`, which is not part of the sources here).  The spec's
Status Model lists the states in protocol order:
AppIdle, AppDetach, Idle, DownloadSync, DownloadBusy, DownloadIdle,
ManifestSync, Manifest, ManifestWaitReset, UploadIdle, Error. -/
inductive DFUState where
  | appIdle
  | appDetach
  | idle
  | downloadSync
  | downloadBusy
  | downloadIdle
  | manifestSync
  | manifest
  | manifestWaitReset
  | uploadIdle
  | error
  deriving DecidableEq, Repr

/-- Modelled from the spec: the decoded 6-byte GETSTATUS response
(`DFU.status` lives in `solo/commands.py`, not part of the sources here):
`{ state, poll_timeout_ms, status_code }`.  Field names follow the uses in
`dfu.py` (`s.state`, `s.timeout`). -/
structure DFUStatus where
  status : Nat
  timeout : Nat
  state : DFUState
  deriving DecidableEq, Repr

/-- `DFUDevice.addr2list(a)`: little-endian 4-byte encoding of an address. -/
def addr2list (a : Nat) : List Nat :=
  [a &&& 0xFF, (a >>> 8) &&& 0xFF, (a >>> 16) &&& 0xFF, (a >>> 24) &&& 0xFF]

/-- `DFUDevice.addr2block(addr, size)`:
`addr -= 0x08000000; addr //= size; addr += 2`.  Python `//` is floor
division on unbounded integers, hence `Int.fdiv`. -/
def addr2block (addr size : Int) : Int :=
  (addr - 0x08000000).fdiv size + 2

/-- `DFUDevice.block2addr(addr, size)`: `addr -= 2; addr *= size; addr += 0x08000000`. -/
def block2addr (block size : Int) : Int :=
  (block - 2) * size + 0x08000000

/-- One entry of the USB trace an operation produces: a GETSTATUS query, a
CLRSTATUS transfer, a DNLOAD transfer (block number and payload bytes), an
UPLOAD transfer (block number and requested size), or a `time.sleep`
recorded in milliseconds. -/
inductive Ev where
  | getStatus
  | clrStatus
  | dnload (block : Int) (data : List Nat)
  | upload (block : Int) (size : Nat)
  | sleepMs (ms : Nat)
  deriving DecidableEq, Repr

/-- Errors a session operation can surface: `statePrecondition` is the
`RuntimeError` raised when the device is not in a state valid for the
operation; `protocolInvariant` is a failing `assert` on the post-state;
`oracleExhausted` is a modelling artifact (the supplied response oracle
ran out of entries). -/
inductive DfuErr where
  | statePrecondition (msg : String)
  | protocolInvariant
  | oracleExhausted
  deriving DecidableEq, Repr

/-- The device-response oracle: the successive decoded GETSTATUS responses
the device returns, and the successive UPLOAD payloads it returns. -/
structure Oracle where
  statuses : List DFUStatus
  uploads : List (List Nat)
  deriving DecidableEq, Repr

/-- A session operation: consumes the oracle, returns a result (or error),
the remaining oracle, and the trace of USB transfers and sleeps. -/
def DfuM (α : Type) : Type := Oracle → Except DfuErr α × Oracle × List Ev

/-- Return without touching the device. -/
def pureM {α : Type} (a : α) : DfuM α := fun o => (.ok a, o, [])

/-- Sequencing: run `x`; on success feed its value to `f`, concatenating
the traces; on error stop (a raised Python exception propagates). -/
def bindM {α β : Type} (x : DfuM α) (f : α → DfuM β) : DfuM β := fun o =>
  match x o with
  | (.ok a, o', evs) =>
      match f a o' with
      | (r, o'', evs') => (r, o'', evs ++ evs')
  | (.error e, o', evs) => (.error e, o', evs)

/-- Raise an exception. -/
def failM {α : Type} (e : DfuErr) : DfuM α := fun o => (.error e, o, [])

/-- `DFUDevice.get_status()` at the session level: one decoded status
response from the oracle.  (The EPIPE retry loop inside `get_status` is
modelled separately by `get_status_raw`; at this level a query that
ultimately succeeded consumes one oracle entry.) -/
def get_statusOp : DfuM DFUStatus := fun o =>
  match o.statuses with
  | [] => (.error .oracleExhausted, o, [.getStatus])
  | s :: rest => (.ok s, { o with statuses := rest }, [.getStatus])

/-- `DFUDevice.state()`: `self.get_status().state`. -/
def stateOp : DfuM DFUState :=
  bindM get_statusOp (fun s => pureM s.state)

/-- `DFUDevice.clear_status()`: a CLRSTATUS control transfer, no response. -/
def clear_statusOp : DfuM Unit := fun o => (.ok (), o, [.clrStatus])

/-- `DFUDevice.dnload(block, data)`: a DNLOAD control transfer. -/
def dnloadOp (block : Int) (data : List Nat) : DfuM Unit := fun o =>
  (.ok (), o, [.dnload block data])

/-- `DFUDevice.upload(block, size)`: an UPLOAD control transfer returning
the next upload payload of the oracle. -/
def uploadOp (block : Int) (size : Nat) : DfuM (List Nat) := fun o =>
  match o.uploads with
  | [] => (.error .oracleExhausted, o, [.upload block size])
  | bs :: rest => (.ok bs, { o with uploads := rest }, [.upload block size])

/-- The loop of `DFUDevice.block_on_state`, recursing on the status
oracle: `s = get_status(); while s.state == state: sleep(s.timeout/1000);
s = get_status()`.  The recorded sleep is the matching response's reported
timeout in milliseconds. -/
def blockAux (target : DFUState) :
    List DFUStatus → Except DfuErr Unit × List DFUStatus × List Ev
  | [] => (.error .oracleExhausted, [], [.getStatus])
  | s :: rest =>
    if s.state = target then
      match blockAux target rest with
      | (r, rest', evs) => (r, rest', .getStatus :: .sleepMs s.timeout :: evs)
    else
      (.ok (), rest, [.getStatus])

/-- `DFUDevice.block_on_state(state)` as a session operation. -/
def block_on_stateOp (target : DFUState) : DfuM Unit := fun o =>
  match blockAux target o.statuses with
  | (r, rest, evs) => (r, { o with statuses := rest }, evs)

/-- `DFUDevice.set_addr(addr)`: `dnload(0x0, [0x21] + addr2list(addr))`. -/
def set_addrOp (addr : Nat) : DfuM Unit :=
  dnloadOp 0 ([0x21] ++ addr2list addr)

/-- `DFUDevice.erase(a)`:
`d = [0x41, a & 0xFF, (a >> 8) & 0xFF, (a >> 16) & 0xFF, (a >> 24) & 0xFF];
return dnload(0x0, d)` — and nothing else. -/
def eraseOp (a : Nat) : DfuM Unit :=
  dnloadOp 0 [0x41, a &&& 0xFF, (a >>> 8) &&& 0xFF, (a >>> 16) &&& 0xFF,
    (a >>> 24) &&& 0xFF]

/-- `DFUDevice.mass_erase()`: `dnload(0x0, [0x41])`, then
`block_on_state(DOWNLOAD_BUSY)`, then `assert DOWNLOAD_IDLE == state()`. -/
def mass_eraseOp : DfuM Unit :=
  bindM (dnloadOp 0 [0x41]) (fun _ =>
  bindM (block_on_stateOp .downloadBusy) (fun _ =>
  bindM stateOp (fun st =>
  if DFUState.downloadIdle = st then pureM () else failM .protocolInvariant)))

/-- `DFUDevice.write_page(addr, data)`: two state checks against
`(IDLE, DOWNLOAD_IDLE)` with a double `clear_status()` between them when
the first fails, then `dnload(addr2block(addr, len(data)), data)`,
`block_on_state(DOWNLOAD_BUSY)`, and `assert DOWNLOAD_IDLE == state()`. -/
def write_pageOp (addr : Int) (data : List Nat) : DfuM Unit :=
  bindM stateOp (fun st =>
  bindM (if st ∈ [DFUState.idle, DFUState.downloadIdle] then pureM ()
         else bindM clear_statusOp (fun _ => clear_statusOp)) (fun _ =>
  bindM stateOp (fun st2 =>
  if st2 ∈ [DFUState.idle, DFUState.downloadIdle] then
    bindM (dnloadOp (addr2block addr (data.length : Int)) data) (fun _ =>
    bindM (block_on_stateOp .downloadBusy) (fun _ =>
    bindM stateOp (fun st3 =>
    if DFUState.downloadIdle = st3 then pureM ()
    else failM .protocolInvariant)))
  else
    failM (.statePrecondition "DFU device not in correct state for writing memory."))))

/-- `DFUDevice.read_mem(addr, size)`: `addr = addr2block(addr, size)`
first, then two state checks against `(IDLE, UPLOAD_IDLE)` with a double
`clear_status()` between them when the first fails, then
`upload(addr, size)`. -/
def read_memOp (addr : Int) (size : Nat) : DfuM (List Nat) :=
  let block := addr2block addr (size : Int)
  bindM stateOp (fun st =>
  bindM (if st ∈ [DFUState.idle, DFUState.uploadIdle] then pureM ()
         else bindM clear_statusOp (fun _ => clear_statusOp)) (fun _ =>
  bindM stateOp (fun st2 =>
  if st2 ∈ [DFUState.idle, DFUState.uploadIdle] then
    uploadOp block size
  else
    failM (.statePrecondition "DFU device not in correct state for reading memory."))))

/-- `DFUDevice.detach()`: two state checks against `(IDLE, DOWNLOAD_IDLE)`
with a double `clear_status()` between them when the first fails, then an
empty `dnload(0x0, [])` and a final `get_status()`. -/
def detachOp : DfuM DFUStatus :=
  bindM stateOp (fun st =>
  bindM (if st ∈ [DFUState.idle, DFUState.downloadIdle] then pureM ()
         else bindM clear_statusOp (fun _ => clear_statusOp)) (fun _ =>
  bindM stateOp (fun st2 =>
  if st2 ∈ [DFUState.idle, DFUState.downloadIdle] then
    bindM (dnloadOp 0 []) (fun _ => get_statusOp)
  else
    failM (.statePrecondition "DFU device not in correct state for detaching."))))

/-- `struct.unpack("<L", m[:4])[0]`: the 32-bit little-endian word held in
the first four bytes. -/
def le32_unpack (m : List Nat) : Nat :=
  match m with
  | b0 :: b1 :: b2 :: b3 :: _ => b0 + 256 * b1 + 65536 * b2 + 16777216 * b3
  | _ => 0

/-- `struct.pack("<L", n)`: 4-byte little-endian encoding. -/
def le32_pack (n : Nat) : List Nat :=
  [n &&& 0xFF, (n >>> 8) &&& 0xFF, (n >>> 16) &&& 0xFF, (n >>> 24) &&& 0xFF]

/-- `DFUDevice.read_option_bytes()`: `set_addr(0x1FFF7800)`,
`block_on_state(DOWNLOAD_BUSY)`, then `read_mem(0, 16)`. -/
def read_option_bytesOp : DfuM (List Nat) :=
  bindM (set_addrOp 0x1FFF7800) (fun _ =>
  bindM (block_on_stateOp .downloadBusy) (fun _ =>
  read_memOp 0 16))

/-- `DFUDevice.write_option_bytes(m)`: `block_on_state(DOWNLOAD_BUSY)`,
`write_page(0, m)`, `block_on_state(DOWNLOAD_BUSY)`.  (The Python
`except OSError` clause swallows transport faults only; the oracle model
has no transport faults, and `RuntimeError`/`AssertionError` from
`write_page` are not `OSError`, so they propagate here as in the code.) -/
def write_option_bytesOp (m : List Nat) : DfuM Unit :=
  bindM (block_on_stateOp .downloadBusy) (fun _ =>
  bindM (write_pageOp 0 m) (fun _ =>
  block_on_stateOp .downloadBusy))

/-- `DFUDevice.prepare_options_bytes_detach()`, parameterized by the two
option-bit masks `STM32L4.options.nBOOT0` and `STM32L4.options.nSWBOOT0`
(`solo/commands.py` is not part of the sources here; the spec says the bit
layout is device-family configuration).  `op |= nBOOT0; op &= ~nSWBOOT0`
on an unbounded Python int is `Nat.ldiff (op ||| nBOOT0) nSWBOOT0`; the
write-back happens only under `if oldop != op`. -/
def prepare_options_bytes_detachOp (nBOOT0 nSWBOOT0 : Nat) : DfuM Unit :=
  bindM (read_memOp 0 16) (fun m =>
  bindM (write_option_bytesOp m) (fun _ =>
  bindM read_option_bytesOp (fun m2 =>
  let oldop := le32_unpack m2
  let op := Nat.ldiff (oldop ||| nBOOT0) nSWBOOT0
  if oldop ≠ op then write_option_bytesOp (le32_pack op ++ m2.drop 4)
  else pureM ())))

/-! ### The GETSTATUS retry loop (`DFUDevice.get_status`, raw level)

`get_status` issues the 6-byte GETSTATUS control transfer in a loop with
`tries = 3`: a `USBError` with `errno == EPIPE` is retried after
`time.sleep(0.01)` while `tries > 0` (decrementing), then escalated to
`RuntimeError("Failed to get status from DFU.")`; any other `USBError`
is re-raised immediately. -/

/-- Outcome of one attempted GETSTATUS control transfer. -/
inductive UsbOutcome where
  | ok (bytes : List Nat)
  | usberr (errno : Nat)
  deriving DecidableEq, Repr

/-- How `get_status` can fail: re-raising the `USBError` unchanged, or the
escalated `RuntimeError`; `exhausted` is a modelling artifact. -/
inductive GetStatusErr where
  | usbError (errno : Nat)
  | fatalRuntime
  | exhausted
  deriving DecidableEq, Repr

/-- `errno.EPIPE` on Linux. -/
def EPIPE : Nat := 32

/-- The retry loop of `DFUDevice.get_status`, recursing on the outcomes of
successive transfer attempts.  Each `.getStatus` event is one attempted
GETSTATUS control transfer; `.sleepMs 10` is the `time.sleep(0.01)`
between retries. -/
def get_status_raw (tries : Nat) :
    List UsbOutcome → Except GetStatusErr (List Nat) × List UsbOutcome × List Ev
  | [] => (.error .exhausted, [], [.getStatus])
  | .ok bs :: rest => (.ok bs, rest, [.getStatus])
  | .usberr e :: rest =>
    if e = EPIPE then
      if 0 < tries then
        match get_status_raw (tries - 1) rest with
        | (r, rest', evs) => (r, rest', .getStatus :: .sleepMs 10 :: evs)
      else (.error .fatalRuntime, rest, [.getStatus])
    else (.error (.usbError e), rest, [.getStatus])

/-- `DFUDevice.get_status` starts the loop with `tries = 3`. -/
def get_status_retry (outcomes : List UsbOutcome) :
    Except GetStatusErr (List Nat) × List UsbOutcome × List Ev :=
  get_status_raw 3 outcomes

/-! ### Discovery (`DFUDevice.find` and the module-level `find`)

`DFUDevice.find` enumerates ST DFU devices (vendor 0x0483, product
0xDF11), filters by serial when given, raises
`exceptions.NonUniqueDeviceError` on more than one candidate and
`RuntimeError("No ST DFU devices found.")` on zero, then binds the device
(set_configuration and the altsetting search, which raises `RuntimeError`
when no matching altsetting exists).  The module-level `find` retries
`DFUDevice.find` up to `attempts` times, catching only `RuntimeError` and
sleeping 0.25 s after each caught failure, then raises
`Exception("no DFU found")`. -/

/-- A transport-visible USB device, identified by its serial string. -/
structure USBDev where
  serial : String
  deriving DecidableEq, Repr

/-- Discovery trace entries: one full enumeration
(`usb.core.find(find_all=True)`) and the `time.sleep(0.25)` backoff. -/
inductive DiscEv where
  | enumerate
  | sleepBackoff
  deriving DecidableEq, Repr

/-- Errors of a single `DFUDevice.find` attempt.  Modelled from the spec:
`exceptions.NonUniqueDeviceError` (from `solo/exceptions.py`, not part of
the sources here) is fatal and immediate per the spec's error taxonomy, so
it is a distinct class from `RuntimeError` and is not caught by the
module-level `except RuntimeError`. -/
inductive DevFindErr where
  | runtimeErr (msg : String)
  | nonUnique
  deriving DecidableEq, Repr

/-- One `DFUDevice.find(ser=..)` attempt over one enumeration result
(`none` models `usb.core.find` returning `None`).  The post-selection
configuration/altsetting binding walks USB descriptors outside this model
and is abstracted by the `bindOk` oracle: `false` means the altsetting
search fails with its `RuntimeError`. -/
def dfu_find (bindOk : USBDev → Bool) (ser : Option String)
    (enum : Option (List USBDev)) : Except DevFindErr USBDev :=
  match enum with
  | none => .error (.runtimeErr "No ST DFU devices found.")
  | some devs =>
    let eligible := match ser with
      | some s => devs.filter (fun d => d.serial == s)
      | none => devs
    if eligible.length > 1 then .error .nonUnique
    else
      match eligible with
      | [] => .error (.runtimeErr "No ST DFU devices found.")
      | d :: _ =>
        if bindOk d then .ok d
        else .error (.runtimeErr "No ST DFU alternate found.")

/-- How the module-level `find` fails: `NonUniqueDeviceError` propagating
uncaught, or `Exception("no DFU found")` after the loop. -/
inductive FindErr where
  | nonUnique
  | noDFUFound
  deriving DecidableEq, Repr

/-- The `for i in range(attempts)` loop of the module-level `find`,
with `k` attempts remaining and `i` the index of the current attempt
(`enum i` is the device list the `i`-th enumeration would see).  A caught
`RuntimeError` sleeps 0.25 s — including after the final attempt — and
continues; `nonUnique` propagates immediately. -/
def find_from (bindOk : USBDev → Bool) (ser : Option String)
    (enum : Nat → Option (List USBDev)) :
    Nat → Nat → Except FindErr USBDev × List DiscEv
  | 0, _ => (.error .noDFUFound, [])
  | k + 1, i =>
    match dfu_find bindOk ser (enum i) with
    | .ok d => (.ok d, [.enumerate])
    | .error .nonUnique => (.error .nonUnique, [.enumerate])
    | .error (.runtimeErr _) =>
      match find_from bindOk ser enum k (i + 1) with
      | (r, evs) => (r, .enumerate :: .sleepBackoff :: evs)

/-- The module-level `find(dfu_serial, attempts)` (with `raw_device=None`). -/
def find (bindOk : USBDev → Bool) (ser : Option String)
    (enum : Nat → Option (List USBDev)) (attempts : Nat) :
    Except FindErr USBDev × List DiscEv :=
  find_from bindOk ser enum attempts 0

/-- The data page writes in a trace: DNLOAD transfers to a block other
than the command pseudo-block 0, with their payloads (block 0 carries the
set-address / erase / detach commands instead of page data). -/
def pageWrites (evs : List Ev) : List (Int × List Nat) :=
  evs.filterMap (fun e =>
    match e with
    | .dnload b d => if b ≠ 0 then some (b, d) else none
    | _ => none)

/-- A status response reporting `Idle` (poll timeout 0). -/
def stI : DFUStatus := ⟨0, 0, .idle⟩

/-- A status response reporting `DownloadIdle` (poll timeout 0). -/
def stD : DFUStatus := ⟨0, 0, .downloadIdle⟩

/-- A status-response sequence under which every state check of
`prepare_options_bytes_detach` passes: `Idle`/`DownloadIdle` at each
precondition check, a non-busy state at each `block_on_state`, and
`DownloadIdle` at each post-write assert (17 responses cover the run with
the conditional write-back; the surplus is unused when it is skipped). -/
def happyStatuses : List DFUStatus :=
  [stI, stI, stI, stI, stI, stD, stD, stI, stI, stI, stI,
   stI, stI, stI, stD, stD, stI]

/-! ## Claims -/

/-- C2: `addr2block` and `block2addr` are exact inverses on valid inputs:
for `0 < size`, `0x08000000 ≤ a` and `(a - 0x08000000) % size = 0`,
`block2addr (addr2block a size) size = a`; and for every integer block,
`addr2block (block2addr b size) size = b`. -/
theorem addr2block_block2addr_roundtrip (a b s : Int) (hs : 0 < s)
    (_ha : 0x08000000 ≤ a) (hmod : (a - 0x08000000) % s = 0) :
    block2addr (addr2block a s) s = a ∧ addr2block (block2addr b s) s = b := by
  constructor
  · unfold addr2block block2addr
    have hdvd : s ∣ (a - 0x08000000) := Int.dvd_of_emod_eq_zero hmod
    rw [Int.fdiv_eq_ediv _ (le_of_lt hs), add_sub_cancel_right,
      Int.ediv_mul_cancel hdvd]
    ring
  · unfold addr2block block2addr
    rw [add_sub_cancel_right, Int.mul_fdiv_cancel _ (ne_of_gt hs)]
    ring

/-- Witness for C2 at the spec's own example: address `0x08004000`,
transfer size 2048 (block 10), and block 5 in the other direction. -/
theorem addr2block_block2addr_roundtrip_witness :
    block2addr (addr2block 0x08004000 2048) 2048 = 0x08004000 ∧
    addr2block (block2addr 5 2048) 2048 = 5 :=
  addr2block_block2addr_roundtrip 0x08004000 5 2048 (by decide) (by decide)
    (by decide)

/-- C10: `read_option_bytes` / `write_option_bytes` drive `read_mem` /
`write_page` at address 0, below the flash base `0x08000000`, so
`addr2block`'s precondition is violated there and the block number passed
to the UPLOAD/DNLOAD transfer is `(0 - 0x08000000).fdiv 16 + 2 = -8388606`
for every such 16-byte access: `read_option_bytesOp`'s UPLOAD and
`write_option_bytesOp`'s data DNLOAD both carry block `-8388606`. -/
theorem option_bytes_negative_block :
    addr2block 0 16 = -8388606 ∧ ¬ ((0 : Int) ≥ 0x08000000) ∧
    read_option_bytesOp
        ⟨[⟨0, 0, .idle⟩, ⟨0, 0, .idle⟩, ⟨0, 0, .idle⟩], [List.replicate 16 0]⟩
      = (.ok (List.replicate 16 0), ⟨[], []⟩,
         [.dnload 0 [0x21, 0x00, 0x78, 0xFF, 0x1F], .getStatus, .getStatus,
          .getStatus, .upload (-8388606) 16]) ∧
    write_pageOp 0 (List.replicate 16 0)
        ⟨[⟨0, 0, .idle⟩, ⟨0, 0, .idle⟩, ⟨0, 0, .downloadIdle⟩,
          ⟨0, 0, .downloadIdle⟩], []⟩
      = (.ok (), ⟨[], []⟩,
         [.getStatus, .getStatus, .dnload (-8388606) (List.replicate 16 0),
          .getStatus, .getStatus]) := by
  refine ⟨by decide, by decide, ?_, ?_⟩ <;> rfl

/-- C1 counterexample: `erase(address)` does NOT poll the device state nor
assert a post-state — on an oracle with no status responses at all it
still succeeds, and its trace holds the single DNLOAD and no status
query.  (Had it run `block_on_state` or the assert, it would have needed a
status response.) -/
theorem erase_no_poll_cx :
    eraseOp 0x08004000 ⟨[], []⟩
      = (.ok (), ⟨[], []⟩, [.dnload 0 [0x41, 0x00, 0x40, 0x00, 0x08]]) ∧
    Ev.getStatus ∉ (eraseOp 0x08004000 ⟨[], []⟩).2.2 := by
  constructor
  · rfl
  · decide

/-- C1 amended: `erase(a)` issues `dnload(0, [0x41] ++ 4-byte LE address)`
and returns at once, with no status polling and no post-state assertion;
the block-on-`DownloadBusy`-then-assert-`DownloadIdle` behaviour belongs
to `mass_erase`, which issues `dnload(0, [0x41])`, polls until the state
leaves `DownloadBusy` (sleeping each reported timeout), and asserts the
resulting state is `DownloadIdle`. -/
theorem erase_dnload_only_massErase_polls (a : Nat) (o : Oracle) (t : Nat) :
    eraseOp a o
      = (.ok (), o,
         [.dnload 0 [0x41, a &&& 0xFF, (a >>> 8) &&& 0xFF,
            (a >>> 16) &&& 0xFF, (a >>> 24) &&& 0xFF]]) ∧
    mass_eraseOp
        ⟨[⟨0, t, .downloadBusy⟩, ⟨0, 0, .downloadIdle⟩,
          ⟨0, 0, .downloadIdle⟩], []⟩
      = (.ok (), ⟨[], []⟩,
         [.dnload 0 [0x41], .getStatus, .sleepMs t, .getStatus, .getStatus]) := by
  exact ⟨rfl, rfl⟩

/-- C6: `get_status` retries the GETSTATUS transfer only on EPIPE, at most
3 times with a 10 ms sleep between attempts, then escalates to the fatal
`RuntimeError`; a `USBError` of any other errno propagates immediately
with no retry and no sleep. -/
theorem get_status_epipe_retry :
    (∀ e rest, e ≠ EPIPE →
      get_status_retry (.usberr e :: rest)
        = (.error (.usbError e), rest, [.getStatus])) ∧
    (∀ rest,
      get_status_retry
          (.usberr EPIPE :: .usberr EPIPE :: .usberr EPIPE :: .usberr EPIPE :: rest)
        = (.error .fatalRuntime, rest,
           [.getStatus, .sleepMs 10, .getStatus, .sleepMs 10, .getStatus,
            .sleepMs 10, .getStatus])) ∧
    (∀ bs rest,
      get_status_retry
          (.usberr EPIPE :: .usberr EPIPE :: .usberr EPIPE :: .ok bs :: rest)
        = (.ok bs, rest,
           [.getStatus, .sleepMs 10, .getStatus, .sleepMs 10, .getStatus,
            .sleepMs 10, .getStatus])) := by
  refine ⟨fun e rest h => ?_, fun rest => rfl, fun bs rest => rfl⟩
  unfold get_status_retry get_status_raw
  rw [if_neg h]

/-- Witness for C6: errno 71 (EPROTO, not EPIPE) propagates unretried. -/
theorem get_status_epipe_retry_witness :
    get_status_retry [.usberr 71]
      = (.error (.usbError 71), [], [.getStatus]) :=
  get_status_epipe_retry.1 71 [] (by decide)

/-- C7: when the first enumeration (no serial filter) sees more than one
matching device, `find` fails at once as the non-unique-device error,
with exactly one enumeration in the trace and no backoff sleep (the
`NonUniqueDeviceError` is not a `RuntimeError`, so the retry loop does not
catch it). -/
theorem find_nonunique_immediate (bindOk : USBDev → Bool)
    (enum : Nat → Option (List USBDev)) (attempts : Nat)
    (d1 d2 : USBDev) (ds : List USBDev)
    (henum : enum 0 = some (d1 :: d2 :: ds)) (hatt : 0 < attempts) :
    find bindOk none enum attempts = (.error .nonUnique, [.enumerate]) := by
  obtain ⟨k, rfl⟩ : ∃ k, attempts = k + 1 :=
    ⟨attempts - 1, (Nat.succ_pred_eq_of_pos hatt).symm⟩
  unfold find find_from
  rw [henum]
  unfold dfu_find
  simp

/-- Witness for C7: two devices, eight attempts configured, a single
enumeration happens. -/
theorem find_nonunique_immediate_witness :
    find (fun _ => true) none (fun _ => some [⟨"A"⟩, ⟨"B"⟩]) 8
      = (.error .nonUnique, [.enumerate]) :=
  find_nonunique_immediate (fun _ => true) (fun _ => some [⟨"A"⟩, ⟨"B"⟩]) 8
    ⟨"A"⟩ ⟨"B"⟩ [] rfl (by decide)

/-- C8 counterexample: with `attempts = 1` and an enumeration that sees no
devices, the trace is `[enumerate, sleepBackoff]` — the 0.25 s backoff
runs after the final (only) attempt too, where the claim says no backoff
follows the final attempt. -/
theorem find_backoff_after_final_cx :
    find (fun _ => true) none (fun _ => some []) 1
      = (.error .noDFUFound, [.enumerate, .sleepBackoff]) ∧
    (find (fun _ => true) none (fun _ => some []) 1).2.count .sleepBackoff ≠ 0 := by
  exact ⟨rfl, by decide⟩

/-- C8 amended: when every enumeration finds zero matching devices,
`find (ser, attempts)` runs the enumeration exactly `attempts` times with
the 0.25 s backoff after every failed attempt — including the final one —
and then fails with `Exception("no DFU found")` (the spec's NotFound). -/
theorem find_notfound_exhausts_attempts (bindOk : USBDev → Bool)
    (ser : Option String) (enum : Nat → Option (List USBDev)) (attempts : Nat)
    (h : ∀ i, enum i = some []) :
    find bindOk ser enum attempts
      = (.error .noDFUFound,
         (List.replicate attempts [DiscEv.enumerate, DiscEv.sleepBackoff]).flatten) := by
  unfold find
  suffices H : ∀ k i, find_from bindOk ser enum k i
      = (.error .noDFUFound,
         (List.replicate k [DiscEv.enumerate, DiscEv.sleepBackoff]).flatten) from
    H attempts 0
  intro k
  induction k with
  | zero => intro i; rfl
  | succ n ih =>
    intro i
    unfold find_from dfu_find
    rw [h i]
    cases ser <;> simp [ih (i + 1), List.replicate_succ]

/-- Witness for C8 at the spec's example `attempts = 3`: three
enumerations, three backoffs, then NotFound. -/
theorem find_notfound_exhausts_attempts_witness :
    find (fun _ => true) none (fun _ => some []) 3
      = (.error .noDFUFound,
         (List.replicate 3 [DiscEv.enumerate, DiscEv.sleepBackoff]).flatten) :=
  find_notfound_exhausts_attempts (fun _ => true) none (fun _ => some []) 3
    (fun _ => rfl)

/-- C5: `block_on_state(target)` returns as soon as a status query reports
a state other than `target`: on a response sequence of matching responses
followed by a first non-matching one, it performs one query per response
up to and including the first non-matching one, sleeping each matching
response's reported timeout right after its query; in particular, for
DownloadBusy, DownloadBusy, then a non-busy state, exactly 3 queries occur
with one sleep after each of the first two, matching their timeouts. -/
theorem block_on_state_exits_on_mismatch (target : DFUState) :
    (∀ (l : List DFUStatus) (s : DFUStatus) (rest : List DFUStatus),
      (∀ x ∈ l, x.state = target) → s.state ≠ target →
      blockAux target (l ++ s :: rest)
        = (.ok (), rest,
           (l.flatMap fun x => [Ev.getStatus, Ev.sleepMs x.timeout]) ++ [Ev.getStatus])) ∧
    (∀ (c1 c2 t1 t2 : Nat) (s3 : DFUStatus) (rest : List DFUStatus),
      s3.state ≠ DFUState.downloadBusy →
      blockAux .downloadBusy
          (⟨c1, t1, .downloadBusy⟩ :: ⟨c2, t2, .downloadBusy⟩ :: s3 :: rest)
        = (.ok (), rest,
           [.getStatus, .sleepMs t1, .getStatus, .sleepMs t2, .getStatus])) := by
  constructor
  · intro l
    induction l with
    | nil =>
      intro s rest _ hs
      simp [blockAux, hs]
    | cons x xs ih =>
      intro s rest hl hs
      have hx : x.state = target := hl x (by simp)
      have hxs : ∀ y ∈ xs, y.state = target := fun y hy => hl y (by simp [hy])
      have ihh := ih s rest hxs hs
      simp only [List.cons_append, blockAux, hx, if_true, eq_self_iff_true, ihh]
      simp [ihh]
  · intro c1 c2 t1 t2 s3 rest hs
    simp [blockAux, hs]

/-- Witness for C5: one busy response with timeout 5, then idle — two
queries, one 5 ms sleep; and the busy-busy-idle instance with timeouts
7 and 9. -/
theorem block_on_state_exits_on_mismatch_witness :
    blockAux .downloadBusy
        ([⟨0, 5, .downloadBusy⟩] ++ ⟨0, 0, .idle⟩ :: [])
      = (.ok (), [],
         (([⟨0, 5, .downloadBusy⟩] : List DFUStatus).flatMap
            fun x => [Ev.getStatus, Ev.sleepMs x.timeout]) ++ [Ev.getStatus]) ∧
    blockAux .downloadBusy
        (⟨0, 7, .downloadBusy⟩ :: ⟨0, 9, .downloadBusy⟩ :: (⟨0, 0, .idle⟩ : DFUStatus) :: [])
      = (.ok (), [],
         [.getStatus, .sleepMs 7, .getStatus, .sleepMs 9, .getStatus]) :=
  ⟨(block_on_state_exits_on_mismatch .downloadBusy).1
      [⟨0, 5, .downloadBusy⟩] ⟨0, 0, .idle⟩ [] (by decide) (by decide),
   (block_on_state_exits_on_mismatch .downloadBusy).2
      0 0 7 9 ⟨0, 0, .idle⟩ [] (by decide)⟩

/-- C3: `write_page`, `read_mem` and `detach` share the precondition
pattern: when the first state query reports `Error` (invalid for all
three) the operation clears status twice; when the state reported after
the clears is still invalid, the operation fails with its
state-precondition `RuntimeError` and its trace is exactly the two
queries and the two clears — no DNLOAD and no UPLOAD was issued. -/
theorem state_precondition_blocks_transfer
    (s1 s2 : DFUStatus) (rest : List DFUStatus) (ups : List (List Nat))
    (addr : Int) (data : List Nat) (size : Nat)
    (h1 : s1.state = .error) :
    ((s2.state ∉ [DFUState.idle, DFUState.downloadIdle]) →
      write_pageOp addr data ⟨s1 :: s2 :: rest, ups⟩
        = (.error (.statePrecondition
             "DFU device not in correct state for writing memory."),
           ⟨rest, ups⟩, [.getStatus, .clrStatus, .clrStatus, .getStatus])) ∧
    ((s2.state ∉ [DFUState.idle, DFUState.uploadIdle]) →
      read_memOp addr size ⟨s1 :: s2 :: rest, ups⟩
        = (.error (.statePrecondition
             "DFU device not in correct state for reading memory."),
           ⟨rest, ups⟩, [.getStatus, .clrStatus, .clrStatus, .getStatus])) ∧
    ((s2.state ∉ [DFUState.idle, DFUState.downloadIdle]) →
      detachOp ⟨s1 :: s2 :: rest, ups⟩
        = (.error (.statePrecondition
             "DFU device not in correct state for detaching."),
           ⟨rest, ups⟩, [.getStatus, .clrStatus, .clrStatus, .getStatus])) := by
  refine ⟨fun h2 => ?_, fun h2 => ?_, fun h2 => ?_⟩ <;>
    simp only [List.mem_cons, List.mem_singleton, not_or] at h2 <;>
    obtain ⟨h2a, h2b⟩ := h2
  · simp [write_pageOp, bindM, stateOp, get_statusOp, pureM, clear_statusOp,
      failM, h1, h2a, h2b]
  · simp [read_memOp, bindM, stateOp, get_statusOp, pureM, clear_statusOp,
      failM, uploadOp, h1, h2a, h2b]
  · simp [detachOp, bindM, stateOp, get_statusOp, pureM, clear_statusOp,
      failM, dnloadOp, h1, h2a, h2b]

/-- Witness for C3: device reports `Error` before and after the clears;
all three operations fail with their precondition error and a trace of
two queries and two clears only. -/
theorem state_precondition_blocks_transfer_witness :
    write_pageOp 0x08004000 [0, 1] ⟨[⟨0, 0, .error⟩, ⟨0, 0, .error⟩], []⟩
      = (.error (.statePrecondition
           "DFU device not in correct state for writing memory."),
         ⟨[], []⟩, [.getStatus, .clrStatus, .clrStatus, .getStatus]) ∧
    read_memOp 0x08004000 16 ⟨[⟨0, 0, .error⟩, ⟨0, 0, .error⟩], []⟩
      = (.error (.statePrecondition
           "DFU device not in correct state for reading memory."),
         ⟨[], []⟩, [.getStatus, .clrStatus, .clrStatus, .getStatus]) ∧
    detachOp ⟨[⟨0, 0, .error⟩, ⟨0, 0, .error⟩], []⟩
      = (.error (.statePrecondition
           "DFU device not in correct state for detaching."),
         ⟨[], []⟩, [.getStatus, .clrStatus, .clrStatus, .getStatus]) := by
  have h := state_precondition_blocks_transfer ⟨0, 0, .error⟩ ⟨0, 0, .error⟩
    [] [] 0x08004000 [0, 1] 16 rfl
  exact ⟨h.1 (by decide), h.2.1 (by decide), h.2.2 (by decide)⟩

/-- C4: in `write_page` and `mass_erase`, when the status query after
`block_on_state(DownloadBusy)` returns reports any state other than
`DownloadIdle` (for instance `Error`), the operation fails with the
protocol-invariant (`assert`) failure instead of returning successfully. -/
theorem post_block_not_downloadIdle_fails
    (s1 s2 sF : DFUStatus) (l r : List DFUStatus) (ups : List (List Nat))
    (addr : Int) (data : List Nat) (evs : List Ev)
    (h1 : s1.state ∈ [DFUState.idle, DFUState.downloadIdle])
    (h2 : s2.state ∈ [DFUState.idle, DFUState.downloadIdle])
    (hb : blockAux .downloadBusy l = (.ok (), sF :: r, evs))
    (hF : sF.state ≠ .downloadIdle) :
    (write_pageOp addr data ⟨s1 :: s2 :: l, ups⟩).1 = .error .protocolInvariant ∧
    (mass_eraseOp ⟨l, ups⟩).1 = .error .protocolInvariant := by
  have hF' : ¬ (DFUState.downloadIdle = sF.state) := fun h => hF h.symm
  simp only [List.mem_cons, List.not_mem_nil, or_false] at h1 h2
  constructor
  · simp [write_pageOp, bindM, stateOp, get_statusOp, pureM, clear_statusOp,
      failM, dnloadOp, block_on_stateOp, h1, h2, hb, hF']
  · simp [mass_eraseOp, bindM, stateOp, get_statusOp, pureM, failM, dnloadOp,
      block_on_stateOp, hb, hF']

/-- Witness for C4: the device reports `Error` right after leaving
`DownloadBusy`; both operations fail with the protocol-invariant error. -/
theorem post_block_not_downloadIdle_fails_witness :
    (write_pageOp 0x08004000 [0, 1]
        ⟨[⟨0, 0, .idle⟩, ⟨0, 0, .idle⟩, ⟨0, 0, .downloadIdle⟩, ⟨0, 0, .error⟩],
         []⟩).1 = .error .protocolInvariant ∧
    (mass_eraseOp ⟨[⟨0, 0, .downloadIdle⟩, ⟨0, 0, .error⟩], []⟩).1
      = .error .protocolInvariant :=
  post_block_not_downloadIdle_fails ⟨0, 0, .idle⟩ ⟨0, 0, .idle⟩ ⟨0, 0, .error⟩
    [⟨0, 0, .downloadIdle⟩, ⟨0, 0, .error⟩] [] [] 0x08004000 [0, 1]
    [.getStatus] (by decide) (by decide) rfl (by decide)

/-- C9: `prepare_options_bytes_detach` reads the 32-bit little-endian
option word, computes the new word by setting `nBOOT0` and clearing
`nSWBOOT0`, and issues the 16-byte write-back (bytes 4–15 unchanged) if
and only if the computed word differs from the word read: on a run whose
state checks all pass, the data page writes are exactly the defensive
rewrite of the bytes read, plus — only when the word changed — one write
of the packed new word followed by the original bytes 4–15. -/
theorem prepare_writeback_iff_changed (nb nsw : Nat) (m : List Nat)
    (hm : m.length = 16) :
    (Nat.ldiff (le32_unpack m ||| nb) nsw = le32_unpack m →
      pageWrites
          (prepare_options_bytes_detachOp nb nsw ⟨happyStatuses, [m, m]⟩).2.2
        = [((-8388606 : Int), m)]) ∧
    (Nat.ldiff (le32_unpack m ||| nb) nsw ≠ le32_unpack m →
      pageWrites
          (prepare_options_bytes_detachOp nb nsw ⟨happyStatuses, [m, m]⟩).2.2
        = [((-8388606 : Int), m),
           ((-8388606 : Int),
            le32_pack (Nat.ldiff (le32_unpack m ||| nb) nsw) ++ m.drop 4)]) := by
  have hblk : addr2block 0 (16 : Int) = -8388606 := by decide
  have hne : ((-8388606 : Int) ≠ 0) := by decide
  constructor
  · intro h
    simp [prepare_options_bytes_detachOp, read_memOp, write_option_bytesOp,
      read_option_bytesOp, write_pageOp, set_addrOp, bindM, stateOp,
      get_statusOp, pureM, failM, clear_statusOp, dnloadOp, uploadOp,
      block_on_stateOp, blockAux, happyStatuses, stI, stD, hm, hblk, h,
      pageWrites, addr2list, le32_pack, hne]
  · intro h
    have h' : le32_unpack m ≠ Nat.ldiff (le32_unpack m ||| nb) nsw :=
      fun e => h e.symm
    simp [prepare_options_bytes_detachOp, read_memOp, write_option_bytesOp,
      read_option_bytesOp, write_pageOp, set_addrOp, bindM, stateOp,
      get_statusOp, pureM, failM, clear_statusOp, dnloadOp, uploadOp,
      block_on_stateOp, blockAux, happyStatuses, stI, stD, hm, hblk, h',
      pageWrites, addr2list, le32_pack, hne]

/-- Witness for C9: with both masks 0 the word never changes, and only
the defensive rewrite is issued; with `nb = 2^27` on an all-zero page the
word changes, and the write-back of the packed new word plus the original
bytes 4–15 follows it. -/
theorem prepare_writeback_iff_changed_witness :
    pageWrites
        (prepare_options_bytes_detachOp 0 0
          ⟨happyStatuses, [List.replicate 16 0, List.replicate 16 0]⟩).2.2
      = [((-8388606 : Int), List.replicate 16 0)] ∧
    pageWrites
        (prepare_options_bytes_detachOp 134217728 0
          ⟨happyStatuses, [List.replicate 16 0, List.replicate 16 0]⟩).2.2
      = [((-8388606 : Int), List.replicate 16 0),
         ((-8388606 : Int),
          le32_pack (Nat.ldiff (le32_unpack (List.replicate 16 0) ||| 134217728) 0)
            ++ (List.replicate 16 0).drop 4)] :=
  have hld : ∀ a : Nat, Nat.ldiff a 0 = a := fun a =>
    Nat.eq_of_testBit_eq (fun k => by simp [Nat.testBit_ldiff])
  ⟨(prepare_writeback_iff_changed 0 0 (List.replicate 16 0) (by decide)).1
      (by simp [hld, le32_unpack, List.replicate_succ]),
   (prepare_writeback_iff_changed 134217728 0 (List.replicate 16 0)
      (by decide)).2 (by simp [hld, le32_unpack, List.replicate_succ])⟩

end SoloDfu
